import Mathlib

/- Shallow embedding of the NFL stats ingestion pipeline:
   - src/ingestion/balldontlie_client.py  (source API client: retry layer,
     cursor paginator, per-resource accessors)
   - src/database/supabase_client.py      (sink client: retry layer, upsert)
   - src/ingestion/balldontlie_ingestor.py (row mappers, ingestion coordinator)

   JSON payloads are modelled by `JVal`; Python dicts by association lists
   (first occurrence wins on lookup, as every dict built here has unique keys).
   The HTTP transport is modelled by a list of stubbed attempt outcomes, one
   per physical request, exactly like the StubSession used by the repository
   unit tests.  Wall-clock time (`_now_iso`) is passed in as an explicit
   `now` argument.  Sleeping (backoff, rate limiting) has no observable
   effect on any claim and is dropped. -/

/-- JSON-like values exchanged with the source and sink APIs. -/
inductive JVal where
  | null
  | bool (b : Bool)
  | int (n : Int)
  | str (s : String)
  | arr (elems : List JVal)
  | obj (fields : List (String × JVal))

/-- Python `d.get(k)`: absent keys give None. -/
def rget (r : List (String × JVal)) (k : String) : JVal :=
  (r.lookup k).getD JVal.null

/-- Python `d.get(k, default)`. -/
def rgetD (r : List (String × JVal)) (k : String) (d : JVal) : JVal :=
  (r.lookup k).getD d

/-- Python `d.setdefault(k, v)` (insertion order preserved, new key appended). -/
def dsetdefault (l : List (String × JVal)) (k : String) (v : JVal) :
    List (String × JVal) :=
  match l.lookup k with
  | some _ => l
  | none => l ++ [(k, v)]

/-- Python `d[k] = v`: replaces the value in place, or appends a new key. -/
def dset : List (String × JVal) → String → JVal → List (String × JVal)
  | [], k, v => [(k, v)]
  | (k0, v0) :: rest, k, v =>
    if k0 = k then (k0, v) :: rest else (k0, v0) :: dset rest k v

/-- Params built by `iter_player_season_stats` (balldontlie_client.py line 186):
    the postseason flag is serialized as the lowercase strings true/false. -/
def iter_player_season_stats_params (season : Int) (postseason : Bool) :
    List (String × JVal) :=
  [("season", JVal.int season),
   ("postseason", JVal.str (if postseason then "true" else "false"))]

/-- Params built by `iter_advanced_receiving` (line 191): season and week are
    always included, postseason is serialized as the strings 1/0. -/
def iter_advanced_receiving_params (season week : Int) (postseason : Bool) :
    List (String × JVal) :=
  [("season", JVal.int season), ("week", JVal.int week),
   ("postseason", JVal.str (if postseason then "1" else "0"))]

/-- Params built by `iter_advanced_rushing` (line 195), identical shape. -/
def iter_advanced_rushing_params (season week : Int) (postseason : Bool) :
    List (String × JVal) :=
  [("season", JVal.int season), ("week", JVal.int week),
   ("postseason", JVal.str (if postseason then "1" else "0"))]

/-- Params built by `iter_advanced_passing` (line 199), identical shape. -/
def iter_advanced_passing_params (season week : Int) (postseason : Bool) :
    List (String × JVal) :=
  [("season", JVal.int season), ("week", JVal.int week),
   ("postseason", JVal.str (if postseason then "1" else "0"))]

/-- Whitespace stripped by Python int() around a numeric string. -/
def isSpaceChar (c : Char) : Bool :=
  c = ' ' || c = '\t' || c = '\n' || c = '\r'

/-- Python `int(...)` on a string: optional surrounding whitespace, optional
    sign, then decimal digits (underscore digit grouping not modelled). -/
def pyIntOfString (s : String) : Option Int :=
  let chars := ((s.toList.dropWhile isSpaceChar).reverse.dropWhile isSpaceChar).reverse
  let signed : Bool × List Char :=
    match chars with
    | '-' :: rest => (true, rest)
    | '+' :: rest => (false, rest)
    | l => (false, l)
  if signed.2 ≠ [] ∧ signed.2.all Char.isDigit then
    some ((if signed.1 then -1 else 1)
      * Int.ofNat (signed.2.foldl (fun acc c => acc * 10 + (c.toNat - 48)) 0))
  else none

/-- Python `int(x)` over the JSON values that can appear as a next_cursor;
    None (and containers) raise, i.e. coercion fails. -/
def pyToInt : JVal → Option Int
  | JVal.int n => some n
  | JVal.bool b => some (if b then 1 else 0)
  | JVal.str s => pyIntOfString s
  | _ => none

/-- The paginator stop test `next_cursor in (None, "", 0)` under Python
    equality (False == 0 holds, True == 0 does not). -/
def isStopCursor : JVal → Bool
  | JVal.null => true
  | JVal.str s => s == ""
  | JVal.int n => n == 0
  | JVal.bool b => !b
  | _ => false

/-- Python truthiness of a JSON value. -/
def pyTruthy : JVal → Bool
  | JVal.null => false
  | JVal.bool b => b
  | JVal.int n => n != 0
  | JVal.str s => s != ""
  | JVal.arr l => !l.isEmpty
  | JVal.obj l => !l.isEmpty

/-- Approximate rendering used inside error messages (Python repr). -/
def jdump : JVal → String
  | JVal.null => "None"
  | JVal.bool b => if b then "True" else "False"
  | JVal.int n => toString n
  | JVal.str s => s
  | JVal.arr _ => "list"
  | JVal.obj _ => "dict"

/-- Python type name, used by the unexpected-response-type error message. -/
def jtype : JVal → String
  | JVal.null => "NoneType"
  | JVal.bool _ => "bool"
  | JVal.int _ => "int"
  | JVal.str _ => "str"
  | JVal.arr _ => "list"
  | JVal.obj _ => "dict"

/-- paginate, lines 149-150: `meta = payload.get("meta") or \x7b\x7d` then
    `next_cursor = meta.get("next_cursor") if isinstance(meta, dict) else None`. -/
def nextCursorOf (payload : List (String × JVal)) : JVal :=
  let meta := if pyTruthy (rget payload "meta") then rget payload "meta" else JVal.obj []
  match meta with
  | JVal.obj kvs => (kvs.lookup "next_cursor").getD JVal.null
  | _ => JVal.null

/-- paginate, lines 137-140: copy the caller params, default per_page, then
    add the cursor when one is carried over from the previous page. -/
def pageParams (base : List (String × JVal)) (perPage : Int) :
    Option Int → List (String × JVal)
  | none => dsetdefault base "per_page" (JVal.int perPage)
  | some c => dset (dsetdefault base "per_page" (JVal.int perPage)) "cursor" (JVal.int c)

/-- paginate, lines 145-147: only dict-shaped elements of data are yielded. -/
def dictRows (elems : List JVal) : List (List (String × JVal)) :=
  elems.filterMap (fun v =>
    match v with
    | JVal.obj kvs => some kvs
    | _ => none)

/-- One run of `BallDontLieNFLClient.paginate` over a stubbed sequence of
    page payloads (the k-th successful `_request` returns `payloads[k]`; a
    run needing more pages than stubbed fails like an exhausted stub session).
    Returns the yielded rows together with the params of every issued
    request, or the fatal error message. -/
def paginateGo (perPage : Int) (base : List (String × JVal)) :
    Option Int → List (List (String × JVal)) →
    Except String (List (List (String × JVal)) × List (List (String × JVal)))
  | _, [] => Except.error "no more stub responses"
  | cursor, payload :: rest =>
    let req := pageParams base perPage cursor
    match rget payload "data" with
    | JVal.arr elems =>
      let rows := dictRows elems
      let nc := nextCursorOf payload
      if isStopCursor nc then Except.ok (rows, [req])
      else
        match pyToInt nc with
        | some c =>
          match paginateGo perPage base (some c) rest with
          | Except.ok (rs, qs) => Except.ok (rows ++ rs, req :: qs)
          | Except.error e => Except.error e
        | none => Except.error ("Invalid next_cursor: " ++ jdump nc)
    | v => Except.error ("Expected list data, got " ++ jtype v)

/-- Entry point of the paginator: no cursor on the first request. -/
def paginate (perPage : Int) (base : List (String × JVal))
    (payloads : List (List (String × JVal))) :
    Except String (List (List (String × JVal)) × List (List (String × JVal))) :=
  paginateGo perPage base none payloads

/-- A stubbed HTTP response: status, body text, and the decoded JSON body
    (none when `resp.json()` would raise). -/
structure StubResp where
  status : Nat
  text : String
  jsonv : Option JVal

/-- Outcome of one physical transport attempt: a transport exception or a
    response, as produced by a stub session. -/
inductive Attempt where
  | exc (msg : String)
  | resp (r : StubResp)

/-- Retryable statuses of both retry layers (429, 500, 502, 503, 504). -/
def retryableStatus (s : Nat) : Bool :=
  s == 429 || s == 500 || s == 502 || s == 503 || s == 504

/-- `requests.Response.ok`: true when the status code is below 400. -/
def respOk (s : Nat) : Bool := s < 400

/-- `BallDontLieNFLClient._request` (balldontlie_client.py lines 69-132),
    with `remaining` = retries still allowed (starts at max_retries; the
    source guard `attempt >= self._max_retries` is `remaining = 0`).  Each
    attempt consumes the next stubbed outcome; an exhausted stub session
    raises, which the source code catches as a transport error. -/
def bdlRequestGo (method url : String) : Nat → List Attempt → Except String JVal
  | remaining, atts =>
    match atts.headD (Attempt.exc "no more stub responses") with
    | Attempt.exc e =>
      match remaining with
      | 0 => Except.error ("Request failed: " ++ method ++ " " ++ url ++ " err=" ++ e)
      | r + 1 => bdlRequestGo method url r atts.tail
    | Attempt.resp resp =>
      if retryableStatus resp.status then
        match remaining with
        | 0 =>
          Except.error ("HTTP " ++ toString resp.status ++ " after retries for "
            ++ method ++ " " ++ url ++ ": " ++ resp.text.take 500)
        | r + 1 => bdlRequestGo method url r atts.tail
      else if !respOk resp.status then
        Except.error ("HTTP " ++ toString resp.status ++ " for " ++ method ++ " "
          ++ url ++ ": " ++ resp.text.take 500)
      else
        match resp.jsonv with
        | none => Except.error ("JSON decode failed for " ++ method ++ " " ++ url)
        | some (JVal.obj kvs) => Except.ok (JVal.obj kvs)
        | some v =>
          Except.error ("Unexpected response type for " ++ method ++ " " ++ url
            ++ ": " ++ jtype v)

/-- The source retry layer entered with a full retry budget. -/
def bdl_request (method url : String) (maxRetries : Nat) (atts : List Attempt) :
    Except String JVal :=
  bdlRequestGo method url maxRetries atts

/-- `SupabaseClient._request` (supabase_client.py lines 66-126).  Same retry
    classification as the source client, but once the budget is exhausted on
    a retryable status the failing response is RETURNED to the caller
    (line 112), not raised; only exhausted transport exceptions raise. -/
def supabaseRequestGo (method url : String) : Nat → List Attempt → Except String StubResp
  | remaining, atts =>
    match atts.headD (Attempt.exc "no more stub responses") with
    | Attempt.exc e =>
      match remaining with
      | 0 => Except.error ("Supabase request failed: " ++ method ++ " " ++ url ++ " err=" ++ e)
      | r + 1 => supabaseRequestGo method url r atts.tail
    | Attempt.resp resp =>
      if retryableStatus resp.status then
        match remaining with
        | 0 => Except.ok resp
        | r + 1 => supabaseRequestGo method url r atts.tail
      else Except.ok resp

/-- One batched PostgREST write request as issued by `upsert`. -/
structure WriteReq where
  method : String
  url : String
  prefer : String
  contentType : String
  body : List (List (String × JVal))

/-- urlencode with quote_plus on the on_conflict column list: commas become
    %2C and spaces become + (no other reserved characters appear here). -/
def percentEncode (s : String) : String :=
  String.join (s.toList.map (fun c =>
    if c = ',' then "%2C" else if c = ' ' then "+" else String.singleton c))

/-- URL built by `upsert`: the on_conflict query parameter is added only when
    the column list is truthy (present and non-empty). -/
def upsertUrl (baseUrl table : String) (onConflict : Option String) : String :=
  let path := baseUrl ++ "/rest/v1/" ++ table
  match onConflict with
  | some oc => if oc = "" then path else path ++ "?on_conflict=" ++ percentEncode oc
  | none => path

/-- `SupabaseClient.upsert` (supabase_client.py lines 128-149): empty input
    returns 0 with no request at all; otherwise one batched merge-on-conflict
    write is issued through the retry layer, a non-2xx response raises a typed
    error with the body truncated to 500 characters, and a 2xx response
    yields `len(rows)`.  The issued write requests are returned alongside. -/
def upsert (baseUrl table : String) (rows : List (List (String × JVal)))
    (onConflict : Option String) (maxRetries : Nat) (atts : List Attempt) :
    Except String (Nat × List WriteReq) :=
  if rows.isEmpty then Except.ok (0, [])
  else
    let url := upsertUrl baseUrl table onConflict
    let req : WriteReq :=
      { method := "POST", url := url,
        prefer := "resolution=merge-duplicates,return=minimal",
        contentType := "application/json", body := rows }
    match supabaseRequestGo "POST" url maxRetries atts with
    | Except.error e => Except.error e
    | Except.ok resp =>
      if 200 ≤ resp.status ∧ resp.status < 300 then Except.ok (rows.length, [req])
      else
        Except.error ("Upsert failed table=" ++ table ++ " status="
          ++ toString resp.status ++ " body=" ++ resp.text.take 500)

/-- Resolve one level of nesting: `x = s.get(k) if isinstance(s.get(k), dict)
    else None` (balldontlie_ingestor.py, used by every stats mapper). -/
def nestedObj (s : List (String × JVal)) (k : String) : Option (List (String × JVal)) :=
  match rget s k with
  | JVal.obj kvs => some kvs
  | _ => none

/-- `x.get("id") if isinstance(x, dict) else None`. -/
def nestedId (s : List (String × JVal)) (k : String) : JVal :=
  match nestedObj s k with
  | some kvs => (kvs.lookup "id").getD JVal.null
  | none => JVal.null

/-- `map_team` (balldontlie_ingestor.py lines 46-56). -/
def map_team (now : String) (t : List (String × JVal)) : List (String × JVal) :=
  [("id", rget t "id"), ("conference", rget t "conference"),
   ("division", rget t "division"), ("location", rget t "location"),
   ("name", rget t "name"), ("full_name", rget t "full_name"),
   ("abbreviation", rget t "abbreviation"), ("updated_at", JVal.str now)]

/-- `map_player` (lines 59-76). -/
def map_player (now : String) (p : List (String × JVal)) : List (String × JVal) :=
  [("id", rget p "id"), ("first_name", rget p "first_name"),
   ("last_name", rget p "last_name"), ("position", rget p "position"),
   ("position_abbreviation", rget p "position_abbreviation"),
   ("height", rget p "height"), ("weight", rget p "weight"),
   ("jersey_number", rget p "jersey_number"), ("college", rget p "college"),
   ("experience", rget p "experience"), ("age", rget p "age"),
   ("team_id", nestedId p "team"), ("updated_at", JVal.str now)]

/-- `map_game` (lines 79-106). -/
def map_game (now : String) (g : List (String × JVal)) : List (String × JVal) :=
  [("id", rget g "id"), ("season", rget g "season"), ("week", rget g "week"),
   ("date", rget g "date"), ("postseason", rget g "postseason"),
   ("status", rget g "status"), ("venue", rget g "venue"),
   ("summary", rget g "summary"),
   ("home_team_id", nestedId g "home_team"),
   ("visitor_team_id", nestedId g "visitor_team"),
   ("home_team_score", rget g "home_team_score"),
   ("home_team_q1", rget g "home_team_q1"),
   ("home_team_q2", rget g "home_team_q2"),
   ("home_team_q3", rget g "home_team_q3"),
   ("home_team_q4", rget g "home_team_q4"),
   ("home_team_ot", rget g "home_team_ot"),
   ("visitor_team_score", rget g "visitor_team_score"),
   ("visitor_team_q1", rget g "visitor_team_q1"),
   ("visitor_team_q2", rget g "visitor_team_q2"),
   ("visitor_team_q3", rget g "visitor_team_q3"),
   ("visitor_team_q4", rget g "visitor_team_q4"),
   ("visitor_team_ot", rget g "visitor_team_ot"),
   ("updated_at", JVal.str now)]

/-- `map_player_season_stats` (lines 109-132). -/
def map_player_season_stats (now : String) (s : List (String × JVal)) :
    List (String × JVal) :=
  [("player_id", nestedId s "player"), ("season", rget s "season"),
   ("postseason", rgetD s "postseason" (JVal.bool false)),
   ("games_played", rget s "games_played"),
   ("passing_completions", rget s "passing_completions"),
   ("passing_attempts", rget s "passing_attempts"),
   ("passing_yards", rget s "passing_yards"),
   ("passing_touchdowns", rget s "passing_touchdowns"),
   ("passing_interceptions", rget s "passing_interceptions"),
   ("qbr", rget s "qbr"), ("qb_rating", rget s "qb_rating"),
   ("rushing_attempts", rget s "rushing_attempts"),
   ("rushing_yards", rget s "rushing_yards"),
   ("rushing_touchdowns", rget s "rushing_touchdowns"),
   ("receptions", rget s "receptions"),
   ("receiving_yards", rget s "receiving_yards"),
   ("receiving_touchdowns", rget s "receiving_touchdowns"),
   ("receiving_targets", rget s "receiving_targets"),
   ("updated_at", JVal.str now)]

/-- `map_player_game_stats` (lines 135-164); season, week and postseason come
    from the nested game object when it is a dict. -/
def map_player_game_stats (now : String) (s : List (String × JVal)) :
    List (String × JVal) :=
  let g := nestedObj s "game"
  [("player_id", nestedId s "player"),
   ("game_id", nestedId s "game"),
   ("season", match g with | some gg => rget gg "season" | none => JVal.null),
   ("week", match g with | some gg => rget gg "week" | none => JVal.null),
   ("postseason", match g with
     | some gg => rgetD gg "postseason" (JVal.bool false)
     | none => JVal.bool false),
   ("team_id", nestedId s "team"),
   ("passing_completions", rget s "passing_completions"),
   ("passing_attempts", rget s "passing_attempts"),
   ("passing_yards", rget s "passing_yards"),
   ("passing_touchdowns", rget s "passing_touchdowns"),
   ("passing_interceptions", rget s "passing_interceptions"),
   ("qbr", rget s "qbr"), ("qb_rating", rget s "qb_rating"),
   ("rushing_attempts", rget s "rushing_attempts"),
   ("rushing_yards", rget s "rushing_yards"),
   ("rushing_touchdowns", rget s "rushing_touchdowns"),
   ("receptions", rget s "receptions"),
   ("receiving_yards", rget s "receiving_yards"),
   ("receiving_touchdowns", rget s "receiving_touchdowns"),
   ("receiving_targets", rget s "receiving_targets"),
   ("updated_at", JVal.str now)]

/-- `map_adv_receiving` (lines 167-184). -/
def map_adv_receiving (now : String) (s : List (String × JVal)) :
    List (String × JVal) :=
  [("player_id", nestedId s "player"), ("season", rget s "season"),
   ("week", rget s "week"),
   ("postseason", rgetD s "postseason" (JVal.bool false)),
   ("receptions", rget s "receptions"), ("targets", rget s "targets"),
   ("yards", rget s "yards"),
   ("avg_intended_air_yards", rget s "avg_intended_air_yards"),
   ("avg_yac", rget s "avg_yac"),
   ("avg_expected_yac", rget s "avg_expected_yac"),
   ("avg_yac_above_expectation", rget s "avg_yac_above_expectation"),
   ("catch_percentage", rget s "catch_percentage"),
   ("updated_at", JVal.str now)]

/-- `map_adv_rushing` (lines 187-203). -/
def map_adv_rushing (now : String) (s : List (String × JVal)) :
    List (String × JVal) :=
  [("player_id", nestedId s "player"), ("season", rget s "season"),
   ("week", rget s "week"),
   ("postseason", rgetD s "postseason" (JVal.bool false)),
   ("rush_attempts", rget s "rush_attempts"),
   ("rush_yards", rget s "rush_yards"), ("efficiency", rget s "efficiency"),
   ("avg_rush_yards", rget s "avg_rush_yards"),
   ("expected_rush_yards", rget s "expected_rush_yards"),
   ("rush_yards_over_expected", rget s "rush_yards_over_expected"),
   ("rush_yards_over_expected_per_att", rget s "rush_yards_over_expected_per_att"),
   ("updated_at", JVal.str now)]

/-- `map_adv_passing` (lines 206-227). -/
def map_adv_passing (now : String) (s : List (String × JVal)) :
    List (String × JVal) :=
  [("player_id", nestedId s "player"), ("season", rget s "season"),
   ("week", rget s "week"),
   ("postseason", rgetD s "postseason" (JVal.bool false)),
   ("attempts", rget s "attempts"), ("completions", rget s "completions"),
   ("pass_yards", rget s "pass_yards"),
   ("pass_touchdowns", rget s "pass_touchdowns"),
   ("interceptions", rget s "interceptions"),
   ("passer_rating", rget s "passer_rating"),
   ("completion_percentage", rget s "completion_percentage"),
   ("completion_percentage_above_expectation",
     rget s "completion_percentage_above_expectation"),
   ("avg_time_to_throw", rget s "avg_time_to_throw"),
   ("avg_intended_air_yards", rget s "avg_intended_air_yards"),
   ("avg_completed_air_yards", rget s "avg_completed_air_yards"),
   ("aggressiveness", rget s "aggressiveness"),
   ("updated_at", JVal.str now)]

/-- `_chunked` (balldontlie_ingestor.py lines 35-43): emit the buffer every
    time it reaches the chunk size, and the final partial buffer if any. -/
def chunkedGo (size : Nat) : List α → List α → List (List α)
  | [], buf => if buf.isEmpty then [] else [buf]
  | x :: xs, buf =>
    let buf2 := buf ++ [x]
    if size ≤ buf2.length then buf2 :: chunkedGo size xs []
    else chunkedGo size xs buf2

/-- `_chunked` entered with an empty buffer. -/
def chunked (l : List α) (size : Nat) : List (List α) := chunkedGo size l []

/-- `CoreIngestSummary` (balldontlie_ingestor.py lines 15-19). -/
structure CoreIngestSummary where
  teams_upserted : Nat
  players_upserted : Nat
  games_upserted : Nat

/-- `StatsIngestSummary` (lines 22-28). -/
structure StatsIngestSummary where
  season_stats_upserted : Nat
  game_stats_upserted : Nat
  adv_receiving_upserted : Nat
  adv_rushing_upserted : Nat
  adv_passing_upserted : Nat

/-- A sink whose every physical request is answered 201 (a capacity-
    provisioned Supabase instance): each logical upsert succeeds. -/
def okAtts : List Attempt := [Attempt.resp { status := 201, text := "", jsonv := none }]

/-- The per-chunk upsert loop of `ingest_core` (lines 245-248 and 253-256):
    one sink upsert per chunk, accumulating the returned counts; a sink
    error aborts the run.  Every request is answered from `okAtts`. -/
def upsertChunksOk (baseUrl table oc : String) :
    List (List (List (String × JVal))) → Nat → Except String Nat
  | [], acc => Except.ok acc
  | ch :: rest, acc =>
    match (upsert baseUrl table ch (some oc) 6 okAtts).map (fun p => acc + p.1) with
    | Except.ok acc2 => upsertChunksOk baseUrl table oc rest acc2
    | Except.error e => Except.error e

/-- `ingest_core` (lines 230-263) against a sink that accepts every batch.
    The client fetches are modelled by the already-retrieved record lists
    (teams from `list_teams`, players and games from their paginators). -/
def ingest_core (baseUrl : String)
    (teams players games : List (List (String × JVal)))
    (now : String) (batch : Nat) : Except String CoreIngestSummary :=
  let teams_rows := teams.map (map_team now)
  match (if teams_rows.isEmpty then Except.ok 0
         else (upsert baseUrl "nfl_teams" teams_rows (some "id") 6 okAtts).map Prod.fst) with
  | Except.error e => Except.error e
  | Except.ok tu =>
    match upsertChunksOk baseUrl "nfl_players" "id"
        (chunked (players.map (map_player now)) batch) 0 with
    | Except.error e => Except.error e
    | Except.ok pu =>
      match upsertChunksOk baseUrl "nfl_games" "id"
          (chunked (games.map (map_game now)) batch) 0 with
      | Except.error e => Except.error e
      | Except.ok gu =>
        Except.ok { teams_upserted := tu, players_upserted := pu, games_upserted := gu }

/-- The per-chunk upsert loop of `ingest_stats_and_advanced`, with the sink
    modelled exactly like the unit-test stub: every upsert call succeeds,
    returns `len(rows)`, and is recorded as (table, rows). -/
def upsertAllStub (table : String) (chunks : List (List (List (String × JVal)))) :
    Nat × List (String × List (List (String × JVal))) →
    Nat × List (String × List (List (String × JVal)))
  | st => chunks.foldl (fun a ch => (a.1 + ch.length, a.2 ++ [(table, ch)])) st

/-- `ingest_stats_and_advanced` (lines 266-323).  The five source accessors
    are stubbed as functions producing either the full record sequence or
    the typed error the generator would raise; the sink records every upsert.
    The source code has no per-resource exception handling, no invalid-row
    filtering and no invalid-row counting: every mapped row of every fetched
    record is chunked and upserted, and any fetch error propagates out of
    the whole call. -/
def ingest_stats_and_advanced (seasons : List Int)
    (fss : Int → Except String (List (List (String × JVal))))
    (fgs : List Int → Except String (List (List (String × JVal))))
    (frc fru fpa : Int → Except String (List (List (String × JVal))))
    (now : String) (batch : Nat)
    (includeSeasonStats includeGameStats includeAdvanced : Bool) :
    Except String (StatsIngestSummary × List (String × List (List (String × JVal)))) := do
  let s0 : Nat × List (String × List (List (String × JVal))) := (0, [])
  let st1 ← if includeSeasonStats then
      seasons.foldlM (fun st season => do
        let recs ← fss season
        pure (upsertAllStub "nfl_player_season_stats"
          (chunked (recs.map (map_player_season_stats now)) batch) st)) s0
    else pure s0
  let st2 ← if includeGameStats then do
      let recs ← fgs seasons
      pure (upsertAllStub "nfl_player_game_stats"
        (chunked (recs.map (map_player_game_stats now)) batch) (0, st1.2))
    else pure (0, st1.2)
  let adv ← if includeAdvanced then
      seasons.foldlM
        (fun (st : (Nat × Nat × Nat) × List (String × List (List (String × JVal)))) season => do
          let rc ← frc season
          let a1 := upsertAllStub "nfl_advanced_receiving_stats"
            (chunked (rc.map (map_adv_receiving now)) batch) (st.1.1, st.2)
          let ru ← fru season
          let a2 := upsertAllStub "nfl_advanced_rushing_stats"
            (chunked (ru.map (map_adv_rushing now)) batch) (st.1.2.1, a1.2)
          let pa ← fpa season
          let a3 := upsertAllStub "nfl_advanced_passing_stats"
            (chunked (pa.map (map_adv_passing now)) batch) (st.1.2.2, a2.2)
          pure ((a1.1, a2.1, a3.1), a3.2)) (((0, 0, 0), st2.2))
    else pure (((0, 0, 0), st2.2))
  pure ({ season_stats_upserted := st1.1, game_stats_upserted := st2.1,
          adv_receiving_upserted := adv.1.1, adv_rushing_upserted := adv.1.2.1,
          adv_passing_upserted := adv.1.2.2 }, adv.2)

/-- An advanced-receiving record whose identifying nested `player` object is
    absent; its mapped row has a null player_id. -/
def advRecNoPlayer : List (String × JVal) :=
  [("season", JVal.int 2024), ("week", JVal.int 0),
   ("postseason", JVal.bool false), ("targets", JVal.int 1)]

/-- An advanced-receiving record with an embedded player id 10. -/
def advRecPlayer10 : List (String × JVal) :=
  [("player", JVal.obj [("id", JVal.int 10)]), ("season", JVal.int 2024),
   ("week", JVal.int 0), ("postseason", JVal.bool false), ("targets", JVal.int 2)]

/-- A source accessor stub yielding no records. -/
def fEmpty : Int → Except String (List (List (String × JVal))) :=
  fun _ => Except.ok []

/-- A game-stats accessor stub yielding no records. -/
def fgsEmpty : List Int → Except String (List (List (String × JVal))) :=
  fun _ => Except.ok []

/-- A receiving accessor stub yielding one playerless and one valid record. -/
def frcTwo : Int → Except String (List (List (String × JVal))) :=
  fun _ => Except.ok [advRecNoPlayer, advRecPlayer10]

/-- C1: the claim says a mapped row whose identifying nested object is absent
    never reaches `upsert`, and that 2 advanced-receiving records of which 1
    lacks `player` produce exactly 1 upserted row.  The coordinator in the
    source has no such filter: on exactly that input it upserts BOTH rows,
    reports adv_receiving_upserted = 2, and the first row handed to the sink
    carries player_id = null. -/
theorem c1_null_player_row_reaches_upsert :
    (ingest_stats_and_advanced [2024] fEmpty fgsEmpty frcTwo fEmpty fEmpty
        "T" 50 false false true).map
      (fun r => (r.1.adv_receiving_upserted,
                 r.2.map (fun c => (c.1, c.2.map (fun row => rget row "player_id")))))
      = Except.ok (2, [("nfl_advanced_receiving_stats", [JVal.null, JVal.int 10])]) := rfl

/-- A receiving accessor stub yielding 30 records that all lack `player`. -/
def frcThirty : Int → Except String (List (List (String × JVal))) :=
  fun _ => Except.ok (List.replicate 30 advRecNoPlayer)

/-- True when the mapped row has a null player_id field. -/
def nullPlayerId (row : List (String × JVal)) : Bool :=
  match rget row "player_id" with
  | JVal.null => true
  | _ => false

/-- C2: the claim says that at 25 or more invalid records the coordinator
    raises a data-quality error and performs no upsert for that resource.
    The source maintains no invalid-row count at all: fed 30 playerless
    advanced-receiving records it raises nothing, upserts all 30 rows in one
    batch, and every row it sends has a null player_id. -/
theorem c2_thirty_invalid_rows_upserted_without_abort :
    (ingest_stats_and_advanced [2024] fEmpty fgsEmpty frcThirty fEmpty fEmpty
        "T" 100 false false true).map
      (fun r => (r.1.adv_receiving_upserted,
                 r.2.map (fun c => (c.1, c.2.length, c.2.all nullPlayerId))))
      = Except.ok (30, [("nfl_advanced_receiving_stats", 30, true)]) := rfl

/-- The typed transient error a receiving fetch raises after retries. -/
def bdl500msg : String :=
  "HTTP 500 after retries for GET https://api.balldontlie.io/nfl/v1/advanced_stats/receiving: Internal Server Error"

/-- A receiving accessor stub that raises the transient typed error. -/
def frcRaise : Int → Except String (List (List (String × JVal))) :=
  fun _ => Except.error bdl500msg

/-- A rushing accessor stub with one valid record. -/
def fruOne : Int → Except String (List (List (String × JVal))) :=
  fun _ => Except.ok
    [[("player", JVal.obj [("id", JVal.int 2)]), ("season", JVal.int 2024),
      ("week", JVal.int 0), ("postseason", JVal.bool false),
      ("rush_attempts", JVal.int 1)]]

/-- A passing accessor stub with one valid record. -/
def fpaOne : Int → Except String (List (List (String × JVal))) :=
  fun _ => Except.ok
    [[("player", JVal.obj [("id", JVal.int 3)]), ("season", JVal.int 2024),
      ("week", JVal.int 0), ("postseason", JVal.bool false),
      ("attempts", JVal.int 1)]]

/-- C3: the claim says a classified transient source-API error raised while
    fetching one advanced endpoint is caught and skipped, letting rushing
    and passing still upsert.  The advanced loop in the source has no
    exception handling: when the receiving fetch raises, the whole call
    propagates the error, so rushing and passing never run. -/
theorem c3_transient_error_aborts_whole_run :
    ingest_stats_and_advanced [2024] fEmpty fgsEmpty frcRaise fruOne fpaOne
        "T" 50 false false true
      = Except.error bdl500msg := rfl

/-- The terminal page payload returned by a stub session. -/
def stopPage : List (String × JVal) :=
  [("data", JVal.arr []),
   ("meta", JVal.obj [("next_cursor", JVal.null), ("per_page", JVal.int 1)])]

/-- C4: the claim says week=0 must omit the `week` param and that week=0
    with postseason=False also omits `postseason`.  All three advanced
    accessors in the source always include both keys: with week=0 and
    postseason=False the built params carry week=0 and postseason="0", and
    the single outbound paginated request carries them too. -/
theorem c4_week_zero_still_sends_week_param :
    (iter_advanced_receiving_params 2024 0 false).lookup "week" = some (JVal.int 0) ∧
    (iter_advanced_rushing_params 2024 0 false).lookup "week" = some (JVal.int 0) ∧
    (iter_advanced_passing_params 2024 0 false).lookup "week" = some (JVal.int 0) ∧
    (iter_advanced_rushing_params 2024 0 false).lookup "postseason"
      = some (JVal.str "0") ∧
    (paginate 100 (iter_advanced_rushing_params 2024 0 false) [stopPage]).map
        (fun r => r.2.map (fun q => (q.lookup "week", q.lookup "postseason")))
      = Except.ok [(some (JVal.int 0), some (JVal.str "0"))] :=
  ⟨rfl, rfl, rfl, rfl, rfl⟩

/-- C5: the season-stats accessor serializes postseason as the lowercase
    strings true/false while every advanced accessor serializes it as the
    strings 1/0, for either boolean value; the two value sets are disjoint,
    so neither endpoint family ever receives the encoding of the other. -/
theorem c5_postseason_encoding_divergence (season week : Int) (b : Bool) :
    (iter_player_season_stats_params season b).lookup "postseason"
      = some (JVal.str (if b then "true" else "false")) ∧
    (iter_advanced_receiving_params season week b).lookup "postseason"
      = some (JVal.str (if b then "1" else "0")) ∧
    (iter_advanced_rushing_params season week b).lookup "postseason"
      = some (JVal.str (if b then "1" else "0")) ∧
    (iter_advanced_passing_params season week b).lookup "postseason"
      = some (JVal.str (if b then "1" else "0")) ∧
    (if b then "true" else "false") ∉ (["1", "0"] : List String) ∧
    (if b then "1" else "0") ∉ (["true", "false"] : List String) := by
  cases b <;> exact ⟨rfl, rfl, rfl, rfl, by decide, by decide⟩

/-- Unfolding step of the source retry loop on a retryable response with
    budget left: the attempt is consumed and the budget shrinks by one. -/
theorem bdlRequestGo_retry_step (method url : String) (r : Nat) (resp : StubResp)
    (atts : List Attempt) (h : retryableStatus resp.status = true) :
    bdlRequestGo method url (r + 1) (Attempt.resp resp :: atts)
      = bdlRequestGo method url r atts := by
  rw [bdlRequestGo]
  simp [h]

/-- Unfolding step of the sink retry loop, identical classification. -/
theorem supabaseRequestGo_retry_step (method url : String) (r : Nat) (resp : StubResp)
    (atts : List Attempt) (h : retryableStatus resp.status = true) :
    supabaseRequestGo method url (r + 1) (Attempt.resp resp :: atts)
      = supabaseRequestGo method url r atts := by
  rw [supabaseRequestGo]
  simp [h]

/-- C7: with retry budget max_retries, a transport answering HTTP 500 for the
    first max_retries attempts and then 200 with a JSON object body makes
    `_request` return that payload, while max_retries+1 consecutive retryable
    failures make it raise the typed after-retries error carrying the
    truncated body. -/
theorem c7_retry_budget (mr : Nat) (method url body t : String)
    (fields : List (String × JVal)) :
    bdl_request method url mr
        (List.replicate mr (Attempt.resp { status := 500, text := body, jsonv := none })
          ++ [Attempt.resp { status := 200, text := t, jsonv := some (JVal.obj fields) }])
      = Except.ok (JVal.obj fields) ∧
    bdl_request method url mr
        (List.replicate (mr + 1) (Attempt.resp { status := 500, text := body, jsonv := none }))
      = Except.error ("HTTP " ++ toString (500 : Nat) ++ " after retries for "
          ++ method ++ " " ++ url ++ ": " ++ body.take 500) := by
  induction mr with
  | zero => exact ⟨rfl, rfl⟩
  | succ n ih =>
    refine ⟨?_, ?_⟩
    · show bdlRequestGo method url (n + 1) _ = _
      rw [List.replicate_succ, List.cons_append,
        bdlRequestGo_retry_step method url n { status := 500, text := body, jsonv := none }
          _ ((by decide : retryableStatus 500 = true))]
      exact ih.1
    · show bdlRequestGo method url (n + 1) _ = _
      rw [List.replicate_succ,
        bdlRequestGo_retry_step method url n { status := 500, text := body, jsonv := none }
          _ ((by decide : retryableStatus 500 = true))]
      exact ih.2

/-- Exhausting the sink retry budget on retryable responses returns the last
    failing response (supabase_client.py line 112) instead of raising. -/
theorem supabaseRequestGo_exhaust (mr : Nat) (method url body : String) :
    supabaseRequestGo method url mr
        (List.replicate (mr + 1) (Attempt.resp { status := 500, text := body, jsonv := none }))
      = Except.ok { status := 500, text := body, jsonv := none } := by
  induction mr with
  | zero => rfl
  | succ n ih =>
    rw [List.replicate_succ,
      supabaseRequestGo_retry_step method url n { status := 500, text := body, jsonv := none }
        _ ((by decide : retryableStatus 500 = true))]
    exact ih

/-- C8 counterexample: the claim says BOTH retry layers raise a typed error
    once the budget is exhausted on a retryable HTTP status.  The sink layer
    does not: with budget 2 and three straight HTTP 500 responses,
    `SupabaseClient._request` RETURNS the failing 500 response. -/
theorem c8_sink_returns_failing_response :
    supabaseRequestGo "POST" "https://s.example/rest/v1/t" 2
        (List.replicate 3 (Attempt.resp { status := 500, text := "oops", jsonv := none }))
      = Except.ok { status := 500, text := "oops", jsonv := none } := rfl

/-- C8 amended: once the retry budget is exhausted on a retryable HTTP
    status, the SOURCE layer raises the typed error carrying the method, URL
    and 500-character-truncated body, while the SINK layer returns the
    failing response to its caller; the sink caller `upsert` then raises a
    typed error with the truncated body on that non-2xx response. -/
theorem c8_retry_exhaustion_amended (mr : Nat) (method url body : String) :
    bdl_request method url mr
        (List.replicate (mr + 1) (Attempt.resp { status := 500, text := body, jsonv := none }))
      = Except.error ("HTTP " ++ toString (500 : Nat) ++ " after retries for "
          ++ method ++ " " ++ url ++ ": " ++ body.take 500) ∧
    supabaseRequestGo method url mr
        (List.replicate (mr + 1) (Attempt.resp { status := 500, text := body, jsonv := none }))
      = Except.ok { status := 500, text := body, jsonv := none } ∧
    upsert "https://s.example" "t" [[("id", JVal.int 1)]] (some "id") mr
        (List.replicate (mr + 1) (Attempt.resp { status := 500, text := body, jsonv := none }))
      = Except.error ("Upsert failed table=" ++ "t" ++ " status="
          ++ toString (500 : Nat) ++ " body=" ++ body.take 500) := by
  refine ⟨?_, supabaseRequestGo_exhaust mr method url body, ?_⟩
  · induction mr with
    | zero => rfl
    | succ n ih =>
      show bdlRequestGo method url (n + 1) _ = _
      rw [List.replicate_succ,
        bdlRequestGo_retry_step method url n { status := 500, text := body, jsonv := none }
          _ ((by decide : retryableStatus 500 = true))]
      exact ih
  · have hs := supabaseRequestGo_exhaust mr "POST"
      (upsertUrl "https://s.example" "t" (some "id")) body
    simp only [upsert, List.isEmpty_cons, Bool.false_eq_true, if_false, hs]
    norm_num

/-- C9: `upsert` on an empty row list returns 0 and issues no request; on a
    non-empty list it issues exactly one batched POST with the
    merge-on-conflict Prefer header, returns the row count on a 2xx response,
    and raises the typed error with the 500-character-truncated body exactly
    when the response status is not 2xx. -/
theorem c9_upsert_contract
    (baseUrl table : String) (oc : Option String) (mr : Nat)
    (atts : List Attempt) (rows : List (List (String × JVal))) (r : StubResp)
    (hne : rows ≠ [])
    (hresp : supabaseRequestGo "POST" (upsertUrl baseUrl table oc) mr atts
      = Except.ok r) :
    upsert baseUrl table [] oc mr atts = Except.ok (0, []) ∧
    (200 ≤ r.status ∧ r.status < 300 →
      upsert baseUrl table rows oc mr atts
        = Except.ok (rows.length,
            [{ method := "POST", url := upsertUrl baseUrl table oc,
               prefer := "resolution=merge-duplicates,return=minimal",
               contentType := "application/json", body := rows }])) ∧
    (¬ (200 ≤ r.status ∧ r.status < 300) →
      upsert baseUrl table rows oc mr atts
        = Except.error ("Upsert failed table=" ++ table ++ " status="
            ++ toString r.status ++ " body=" ++ r.text.take 500)) := by
  match rows, hne with
  | r0 :: rs, _ =>
    refine ⟨rfl, ?_, ?_⟩
    · intro h2
      simp only [upsert, List.isEmpty_cons, Bool.false_eq_true, if_false, hresp]
      rw [if_pos h2]
    · intro h2
      simp only [upsert, List.isEmpty_cons, Bool.false_eq_true, if_false, hresp]
      rw [if_neg h2]

/-- C9 witness: a concrete empty-input call returning 0 and a concrete
    one-row call against a 201-answering sink returning 1 with its single
    batched write request. -/
theorem c9_upsert_contract_witness :
    upsert "https://s.example" "t" [] (some "id") 0 okAtts = Except.ok (0, []) ∧
    upsert "https://s.example" "t" [[("id", JVal.int 1)]] (some "id") 0 okAtts
      = Except.ok (1,
          [{ method := "POST", url := upsertUrl "https://s.example" "t" (some "id"),
             prefer := "resolution=merge-duplicates,return=minimal",
             contentType := "application/json", body := [[("id", JVal.int 1)]] }]) := by
  have h := c9_upsert_contract "https://s.example" "t" (some "id") 0 okAtts
      [[("id", JVal.int 1)]] { status := 201, text := "", jsonv := none }
      (by simp) rfl
  exact ⟨h.1, h.2.1 (by decide)⟩

/-- The chunker partitions its input: chunk lengths sum to input length. -/
theorem chunkedGo_sum_length (size : Nat) (xs : List α) :
    ∀ buf : List α,
      ((chunkedGo size xs buf).map List.length).sum = xs.length + buf.length := by
  induction xs with
  | nil =>
    intro buf
    cases buf with
    | nil => simp [chunkedGo]
    | cons b bs => simp [chunkedGo]
  | cons x xs ih =>
    intro buf
    simp only [chunkedGo]
    split
    · simp only [List.map_cons, List.sum_cons, ih, List.length_append,
        List.length_cons, List.length_nil]
      omega
    · rw [ih]
      simp only [List.length_append, List.length_cons, List.length_nil]
      omega

/-- `_chunked` partitions its input. -/
theorem chunked_sum_length (l : List α) (size : Nat) :
    ((chunked l size).map List.length).sum = l.length := by
  rw [chunked, chunkedGo_sum_length]
  simp

/-- Against an always-2xx sink, `upsert` reports exactly `len(rows)`. -/
theorem upsert_okAtts_length (baseUrl table : String) (oc : Option String)
    (rows : List (List (String × JVal))) :
    (upsert baseUrl table rows oc 6 okAtts).map Prod.fst = Except.ok rows.length := by
  cases rows with
  | nil => rfl
  | cons a as => rfl

/-- The per-chunk loop accumulates exactly the chunk lengths. -/
theorem upsertChunksOk_spec (baseUrl table oc : String)
    (chunks : List (List (List (String × JVal)))) :
    ∀ acc : Nat,
      upsertChunksOk baseUrl table oc chunks acc
        = Except.ok (acc + (chunks.map List.length).sum) := by
  induction chunks with
  | nil => intro acc; simp [upsertChunksOk]
  | cons ch rest ih =>
    intro acc
    have hch : (upsert baseUrl table ch (some oc) 6 okAtts).map (fun p => acc + p.1)
        = Except.ok (acc + ch.length) := by
      cases ch with
      | nil => rfl
      | cons a as => rfl
    simp only [upsertChunksOk, hch, ih, List.map_cons, List.sum_cons, Except.ok.injEq]
    omega

/-- C10: `upsert` returns exactly the length of its input row list, never a
    server-reported affected-row count, and consequently every count in the
    `ingest_core` summary equals the number of rows sent to the sink (which
    here acknowledges every batch with 201 and reports nothing back). -/
theorem c10_upserted_counts_equal_rows_sent
    (baseUrl table : String) (oc : Option String)
    (rows teams players games : List (List (String × JVal)))
    (now : String) (batch : Nat) :
    (upsert baseUrl table rows oc 6 okAtts).map Prod.fst = Except.ok rows.length ∧
    ingest_core baseUrl teams players games now batch
      = Except.ok { teams_upserted := teams.length,
                    players_upserted := players.length,
                    games_upserted := games.length } := by
  refine ⟨upsert_okAtts_length baseUrl table oc rows, ?_⟩
  have ht : (if (teams.map (map_team now)).isEmpty = true then Except.ok 0
             else (upsert baseUrl "nfl_teams" (teams.map (map_team now))
                 (some "id") 6 okAtts).map Prod.fst)
      = Except.ok teams.length := by
    cases teams with
    | nil => rfl
    | cons t ts =>
      simp only [List.map_cons, List.isEmpty_cons, Bool.false_eq_true, if_false,
        upsert_okAtts_length, List.length_cons, List.length_map]
  have hp : upsertChunksOk baseUrl "nfl_players" "id"
      (chunked (players.map (map_player now)) batch) 0
      = Except.ok players.length := by
    rw [upsertChunksOk_spec, chunked_sum_length]
    simp
  have hg : upsertChunksOk baseUrl "nfl_games" "id"
      (chunked (games.map (map_game now)) batch) 0
      = Except.ok games.length := by
    rw [upsertChunksOk_spec, chunked_sum_length]
    simp
  simp only [ingest_core, ht, hp, hg]

/-- Lookup skips a prefix in which the key is absent. -/
theorem jlookup_append (k : String) (l1 l2 : List (String × JVal))
    (h : l1.lookup k = none) : (l1 ++ l2).lookup k = l2.lookup k := by
  induction l1 with
  | nil => rfl
  | cons p t ih =>
    obtain ⟨k0, v0⟩ := p
    by_cases hk : (k == k0) = true
    · simp [List.lookup, hk] at h
    · simp only [List.cons_append, List.lookup] at h ⊢
      rw [Bool.eq_false_iff.mpr hk] at h ⊢
      exact ih h

/-- Assignment `d[k] = v` makes the value of k equal to v. -/
theorem lookup_dset_self (l : List (String × JVal)) (k : String) (v : JVal) :
    (dset l k v).lookup k = some v := by
  induction l with
  | nil => simp [dset, List.lookup]
  | cons p t ih =>
    obtain ⟨k0, v0⟩ := p
    by_cases hk : k0 = k
    · subst hk
      simp [dset, List.lookup]
    · have hbk : (k == k0) = false := by
        simp [beq_iff_eq]
        exact fun he => hk he.symm
      simp only [dset, if_neg hk, List.lookup, hbk]
      exact ih

/-- setdefault of per_page never introduces a cursor key. -/
theorem lookup_dsetdefault_cursor (base : List (String × JVal)) (v : JVal)
    (hb : base.lookup "cursor" = none) :
    (dsetdefault base "per_page" v).lookup "cursor" = none := by
  unfold dsetdefault
  cases hlp : base.lookup "per_page" with
  | some w => exact hb
  | none => rw [jlookup_append "cursor" base _ hb]; rfl

/-- The first page request carries no cursor when the caller params have
    none (paginate issues it with `cursor = None`). -/
theorem lookup_pageParams_first (base : List (String × JVal)) (perPage : Int)
    (hb : base.lookup "cursor" = none) :
    (pageParams base perPage none).lookup "cursor" = none :=
  lookup_dsetdefault_cursor base (JVal.int perPage) hb

/-- Follow-up page requests carry exactly the threaded integer cursor. -/
theorem lookup_pageParams_cursor (base : List (String × JVal)) (perPage c : Int) :
    (pageParams base perPage (some c)).lookup "cursor" = some (JVal.int c) :=
  lookup_dset_self _ "cursor" (JVal.int c)

/-- Structure of every successful paginate run: at least one request and at
    most one per stubbed page; the first request carries the entry cursor;
    request k+1 exists exactly while the next_cursor of page k is not a stop
    value and carries its integer coercion; the last consumed page is the
    first whose next_cursor is a stop value. -/
theorem paginateGo_run_spec (perPage : Int) (base : List (String × JVal))
    (payloads : List (List (String × JVal))) :
    ∀ (cur : Option Int) (recs reqs : List (List (String × JVal))),
      paginateGo perPage base cur payloads = Except.ok (recs, reqs) →
      (0 < reqs.length ∧ reqs.length ≤ payloads.length) ∧
      reqs.head? = some (pageParams base perPage cur) ∧
      (∀ k, k + 1 < reqs.length →
        isStopCursor (nextCursorOf (payloads.getD k [])) = false ∧
        ∃ c, pyToInt (nextCursorOf (payloads.getD k [])) = some c ∧
          reqs.getD (k + 1) [] = pageParams base perPage (some c)) ∧
      isStopCursor (nextCursorOf (payloads.getD (reqs.length - 1) [])) = true := by
  induction payloads with
  | nil =>
    intro cur recs reqs h
    exact absurd h (by simp [paginateGo])
  | cons payload rest ih =>
    intro cur recs reqs h
    rw [paginateGo] at h
    cases hdata : rget payload "data" with
    | null => simp [hdata] at h
    | bool b => simp [hdata] at h
    | int n => simp [hdata] at h
    | str s => simp [hdata] at h
    | obj kvs => simp [hdata] at h
    | arr elems =>
      simp only [hdata] at h
      by_cases hstop : isStopCursor (nextCursorOf payload) = true
      · rw [if_pos hstop] at h
        simp only [Except.ok.injEq, Prod.mk.injEq] at h
        obtain ⟨hrecs, hreqs⟩ := h
        subst hreqs
        refine ⟨⟨by simp, by simp⟩, rfl, ?_, ?_⟩
        · intro k hk
          simp at hk
        · simpa using hstop
      · rw [if_neg hstop] at h
        have hstopf : isStopCursor (nextCursorOf payload) = false :=
          Bool.eq_false_iff.mpr hstop
        cases hc : pyToInt (nextCursorOf payload) with
        | none => simp [hc] at h
        | some c =>
          simp only [hc] at h
          cases hrec : paginateGo perPage base (some c) rest with
          | error e => simp [hrec] at h
          | ok pr =>
            obtain ⟨rs, qs⟩ := pr
            simp only [hrec] at h
            simp only [Except.ok.injEq, Prod.mk.injEq] at h
            obtain ⟨hrecs, hreqs⟩ := h
            subst hreqs
            obtain ⟨⟨hqs0, hqslen⟩, hqshead, hqsthread, hqslast⟩ :=
              ih (some c) rs qs hrec
            refine ⟨⟨by simp, by simpa using Nat.succ_le_succ hqslen⟩, rfl, ?_, ?_⟩
            · intro k hk
              cases k with
              | zero =>
                refine ⟨by simpa using hstopf, c, by simpa using hc, ?_⟩
                cases qs with
                | nil => simp at hqs0
                | cons q0 qt =>
                  simp only [List.head?_cons, Option.some.injEq] at hqshead
                  simpa using hqshead
              | succ j =>
                have hj : j + 1 < qs.length := by
                  simpa using Nat.lt_of_succ_lt_succ hk
                have := hqsthread j hj
                simpa using this
            · cases hql : qs.length with
              | zero => omega
              | succ m =>
                have h2 : isStopCursor (nextCursorOf (rest.getD (qs.length - 1) [])) = true :=
                  hqslast
                rw [hql] at h2
                simp only [List.length_cons, Nat.add_sub_cancel, hql, List.getD_cons_succ]
                simpa using h2

/-- C6: in every successful paginate run whose caller params carry no cursor,
    the first request has no cursor param, request k+1 carries exactly the
    integer coercion of the next_cursor of response k, iteration stops exactly at
    the first stop-valued next_cursor (None, empty string or 0), and a page
    whose next_cursor is neither a stop value nor integer-coercible makes
    paginate raise the fatal typed error instead. -/
theorem c6_cursor_threading
    (perPage perPage2 : Int) (base base2 : List (String × JVal))
    (payloads recs reqs : List (List (String × JVal)))
    (badPayload : List (String × JVal)) (rest2 : List (List (String × JVal)))
    (elems2 : List JVal)
    (hbase : base.lookup "cursor" = none)
    (hrun : paginate perPage base payloads = Except.ok (recs, reqs))
    (hdata2 : rget badPayload "data" = JVal.arr elems2)
    (hnstop : isStopCursor (nextCursorOf badPayload) = false)
    (hncoerce : pyToInt (nextCursorOf badPayload) = none) :
    (∀ q, reqs.head? = some q → q.lookup "cursor" = none) ∧
    (∀ k, k + 1 < reqs.length →
      ∃ c, pyToInt (nextCursorOf (payloads.getD k [])) = some c ∧
        (reqs.getD (k + 1) []).lookup "cursor" = some (JVal.int c)) ∧
    (0 < reqs.length ∧ reqs.length ≤ payloads.length) ∧
    (∀ k, k + 1 < reqs.length →
      isStopCursor (nextCursorOf (payloads.getD k [])) = false) ∧
    isStopCursor (nextCursorOf (payloads.getD (reqs.length - 1) [])) = true ∧
    paginate perPage2 base2 (badPayload :: rest2)
      = Except.error ("Invalid next_cursor: " ++ jdump (nextCursorOf badPayload)) := by
  obtain ⟨hlen, hhead, hthread, hlast⟩ :=
    paginateGo_run_spec perPage base payloads none recs reqs hrun
  refine ⟨?_, ?_, hlen, ?_, hlast, ?_⟩
  · intro q hq
    rw [hhead, Option.some.injEq] at hq
    subst hq
    exact lookup_pageParams_first base perPage hbase
  · intro k hk
    obtain ⟨hns, c, hc, hreq⟩ := hthread k hk
    exact ⟨c, hc, by rw [hreq]; exact lookup_pageParams_cursor base perPage c⟩
  · intro k hk
    exact (hthread k hk).1
  · rw [paginate, paginateGo]
    simp [hdata2, hnstop, hncoerce]

/-- Caller params of the C6 witness run (no cursor key). -/
def c6Base : List (String × JVal) := [("season", JVal.int 2024)]

/-- First witness page: two rows, next_cursor 99. -/
def c6Page1 : List (String × JVal) :=
  [("data", JVal.arr [JVal.obj [("id", JVal.int 1)], JVal.obj [("id", JVal.int 2)]]),
   ("meta", JVal.obj [("next_cursor", JVal.int 99), ("per_page", JVal.int 2)])]

/-- Second witness page: one row, next_cursor None (stop). -/
def c6Page2 : List (String × JVal) :=
  [("data", JVal.arr [JVal.obj [("id", JVal.int 3)]]),
   ("meta", JVal.obj [("next_cursor", JVal.null), ("per_page", JVal.int 2)])]

/-- A malformed page whose next_cursor is a non-numeric string. -/
def c6BadPage : List (String × JVal) :=
  [("data", JVal.arr []),
   ("meta", JVal.obj [("next_cursor", JVal.str "abc"), ("per_page", JVal.int 1)])]

/-- C6 witness: a concrete two-page run (cursor 99 threaded, stop at None)
    and a concrete malformed-cursor page that makes paginate raise. -/
theorem c6_cursor_threading_witness :
    isStopCursor (nextCursorOf c6Page2) = true ∧
    paginate 7 c6Base [c6BadPage]
      = Except.error ("Invalid next_cursor: " ++ jdump (nextCursorOf c6BadPage)) ∧
    ((0 : Nat) < 2 ∧ (2 : Nat) ≤ 2) := by
  have h := c6_cursor_threading 2 7 c6Base c6Base [c6Page1, c6Page2]
      [[("id", JVal.int 1)], [("id", JVal.int 2)], [("id", JVal.int 3)]]
      [[("season", JVal.int 2024), ("per_page", JVal.int 2)],
       [("season", JVal.int 2024), ("per_page", JVal.int 2), ("cursor", JVal.int 99)]]
      c6BadPage [] [] rfl rfl rfl rfl (by decide)
  exact ⟨h.2.2.2.2.1, h.2.2.2.2.2, h.2.2.1⟩
